import Mathlib

/-!
Verification of the sysroot/toolchain preparation and build-command
composition engine of cargo-hyperlight, against its natural-language
specification.  The Rust sources are shallowly embedded: environment
mappings become functions from keys to optional values, paths become
lists of components, and every subprocess or filesystem interaction is
an explicit oracle input.  Definitions follow the source files
(cargo_cmd.rs, sysroot.rs, toolchain.rs, cli.rs, lib.rs) closely and
keep the source names where possible.
-/

/-! ## Environment resolver (src/cargo_cmd.rs, merge_env) -/

/-- A concrete environment mapping: key to optional value, mirroring the
resolved `HashMap<OsString, OsString>` extensionally. -/
def EnvMap : Type := String → Option String

/-- `HashMap::insert`: later insertions overwrite earlier ones. -/
def mapInsert (m : EnvMap) (k v : String) : EnvMap :=
  fun x => if x = k then some v else m x

/-- `HashMap::remove`. -/
def mapRemove (m : EnvMap) (k : String) : EnvMap :=
  fun x => if x = k then none else m x

/-- Collecting the base key/value sequence into a map
(`collect::<HashMap<_,_>>()`): for duplicate keys the later entry wins. -/
def baseMap (base : List (String × String)) : EnvMap :=
  base.foldl (fun m kv => mapInsert m kv.1 kv.2) (fun _ => none)

/-- One step of the overlay loop in `merge_env`: a `Some` value is
inserted, a `None` value removes the key. -/
def applyEnv (m : EnvMap) (kv : String × Option String) : EnvMap :=
  match kv.2 with
  | some v => mapInsert m kv.1 v
  | none => mapRemove m kv.1

/-- `merge_env` from src/cargo_cmd.rs: collect the base into a map, then
apply each overlay entry in order (set inserts, unset removes). -/
def merge_env (base : List (String × String)) (envs : List (String × Option String)) : EnvMap :=
  envs.foldl applyEnv (baseMap base)

/-- The effective overlay binding for a key: the last entry of the
overlay list mentioning that key, if any.  `some (some v)` means the
overlay sets the key to `v`, `some none` means it unsets it, `none`
means the overlay does not mention the key. -/
def overlayLookup : List (String × Option String) → String → Option (Option String)
  | [], _ => none
  | kv :: rest, k =>
    match overlayLookup rest k with
    | some r => some r
    | none => if kv.1 = k then some kv.2 else none

/-! ## Command environment state and flag appending (src/cargo_cmd.rs) -/

/-- The environment-relevant state of a `std::process::Command`: the
explicit overlay (`some (some v)` for a key set via `env`, `some none`
for a key removed via `env_remove`, `none` for an untouched key) and the
ambient process environment read through `std::env::var_os`. -/
structure Cmd where
  overlay : String → Option (Option String)
  ambient : String → Option String

/-- `get_env` from src/cargo_cmd.rs: look the key up among the explicit
overlay entries of the command; an explicitly removed key yields `none`
without falling back; an untouched key falls back to the ambient
process environment. -/
def get_env (cmd : Cmd) (key : String) : Option String :=
  match cmd.overlay key with
  | some v => v
  | none => cmd.ambient key

/-- `Command::env`: record an explicit set of the key in the overlay. -/
def Cmd.env (cmd : Cmd) (k v : String) : Cmd :=
  { cmd with overlay := fun x => if x = k then some (some v) else cmd.overlay x }

/-- The `search_keys` array of `append_cflags` in src/cargo_cmd.rs, in
source order: triple-exact, hyphens-to-underscores, its upper-cased
form, the three tool-specific fallbacks, TARGET_CFLAGS, CFLAGS. -/
def search_keys (triplet : String) : List String :=
  let snake := triplet.replace "-" "_"
  let upper := snake.toUpper
  ["CFLAGS_" ++ triplet, "CFLAGS_" ++ snake, "CFLAGS_" ++ upper,
   "CFLAGS_hyperlight", "CFLAGS_HYPERLIGHT", "HYPERLIGHT_CFLAGS",
   "TARGET_CFLAGS", "CFLAGS"]

/-- `append_bindgen_cflags` from src/cargo_cmd.rs: no-op on an empty
flag string, otherwise append to the current effective value of
BINDGEN_EXTRA_CLANG_ARGS with a single separating space. -/
def append_bindgen_cflags (cmd : Cmd) (flags : String) : Cmd :=
  if flags = "" then cmd
  else
    let new_flags := (get_env cmd "BINDGEN_EXTRA_CLANG_ARGS").getD ""
    let new_flags := (if new_flags = "" then new_flags else new_flags ++ " ") ++ flags
    cmd.env "BINDGEN_EXTRA_CLANG_ARGS" new_flags

/-- `append_cflags` from src/cargo_cmd.rs: no-op on an empty flag
string; otherwise read the first effective value among `search_keys`,
join with a single space when non-empty, write the result to the first
(triple-exact) key, then mirror the new flags into
BINDGEN_EXTRA_CLANG_ARGS. -/
def append_cflags (cmd : Cmd) (triplet flags : String) : Cmd :=
  if flags = "" then cmd
  else
    let keys := search_keys triplet
    let new_flags := (keys.findSome? (fun key => get_env cmd key)).getD ""
    let new_flags := (if new_flags = "" then new_flags else new_flags ++ " ") ++ flags
    let cmd := cmd.env (keys.headD "") new_flags
    append_bindgen_cflags cmd flags

/-! ## Target specification patching (src/sysroot.rs, build lines 23-36) -/

/-- A target specification: the five fields the freestanding patch
touches, plus an opaque association list standing for every other field
of the baseline target-spec JSON. -/
structure TargetSpec where
  entry_name : Option String
  code_model : Option String
  linker : Option String
  linker_flavor : Option String
  pre_link_args : Option (List (String × List String))
  other : List (String × String)
deriving Repr, DecidableEq

/-- The patch applied in `build` to the baseline spec obtained from
`get_spec` for the x86_64-hyperlight-none target. -/
def patch_spec (spec : TargetSpec) : TargetSpec :=
  { spec with
    entry_name := some "entrypoint"
    code_model := some "small"
    linker := some "rust-lld"
    linker_flavor := some "gnu-lld"
    pre_link_args := some [("gnu-lld", ["-znostart-stop-gc"])] }

/-! ## Sysroot builder (src/sysroot.rs with directory layout from src/lib.rs) -/

/-- A filesystem path, as its list of components. -/
def FsPath : Type := List String

/-- `Args::sysroot_dir` from src/lib.rs: `target_dir/sysroot`. -/
def sysroot_dirOf (target_dir : List String) : List String :=
  target_dir ++ ["sysroot"]

/-- `Args::triplet_dir`: `target_dir/sysroot/lib/rustlib/<target>`. -/
def triplet_dirOf (target_dir : List String) (target : String) : List String :=
  sysroot_dirOf target_dir ++ ["lib", "rustlib", target]

/-- `Args::build_dir`: `target_dir/sysroot/target`. -/
def build_dirOf (target_dir : List String) : List String :=
  sysroot_dirOf target_dir ++ ["target"]

/-- `Args::libs_dir`: `target_dir/sysroot/lib/rustlib/<target>/lib`. -/
def libs_dirOf (target_dir : List String) (target : String) : List String :=
  triplet_dirOf target_dir target ++ ["lib"]

/-- `Args::crate_dir`: `target_dir/sysroot/crate`. -/
def crate_dirOf (target_dir : List String) : List String :=
  sysroot_dirOf target_dir ++ ["crate"]

/-- `Args::build_plan_dir`: `target_dir/sysroot/build-plan`. -/
def build_plan_dirOf (target_dir : List String) : List String :=
  sysroot_dirOf target_dir ++ ["build-plan"]

/-- One deserialized `Invocation` record of the build plan. -/
structure Invocation where
  outputs : List (List String)
deriving Repr, DecidableEq

/-- One deserialized line of the build-plan output. -/
structure BuildPlan where
  invocations : List Invocation
deriving Repr, DecidableEq

/-- `Path::strip_prefix`: remove a leading base path, component-wise. -/
def stripPathBase : List String → List String → Option (List String)
  | [], p => some p
  | _ :: _, [] => none
  | b :: bs, q :: qs => if b = q then stripPathBase bs qs else none

/-- `str::split_once` at a separator character: the parts before and
after its first occurrence; `none` when the character does not occur. -/
def splitOnceChar (sep : Char) : List Char → Option (List Char × List Char)
  | [] => none
  | c :: cs =>
    if c = sep then some ([], cs)
    else
      match splitOnceChar sep cs with
      | some ab => some (c :: ab.1, ab.2)
      | none => none

/-- `str::rsplit_once` at a dot: split a file name at its last dot into
stem and extension; `none` when the name has no dot. -/
def rsplitOnceDot (s : String) : Option (String × String) :=
  match splitOnceChar '.' s.data.reverse with
  | some ab => some (String.mk ab.2.reverse, String.mk ab.1.reverse)
  | none => none

/-- `str::split_once` at a dash: the part before the first dash;
`none` when the string has no dash. -/
def splitOnceDash (s : String) : Option String :=
  match splitOnceChar '-' s.data with
  | some ab => some (String.mk ab.1)
  | none => none

/-- The `filter_map` body of the artifact loop in src/sysroot.rs lines
119-132: strip the build-plan directory, take the file name, split off
the extension and the hash suffix, keep rlib/rmeta files whose stem is
not libsysroot, and rebase the relative path onto the target dir. -/
def artifact_of (build_plan_dir target_dir : List String) (f : List String) :
    Option (List String) :=
  match stripPathBase build_plan_dir f with
  | none => none
  | some rel =>
    match rel.getLast? with
    | none => none
    | some filename =>
      match rsplitOnceDot filename with
      | none => none
      | some (stem, ext) =>
        match splitOnceDash stem with
        | none => none
        | some stem0 =>
          if stem0 ≠ "libsysroot" && (ext = "rlib" || ext = "rmeta") then
            some (target_dir ++ rel)
          else none

/-- The artifact-collection loop of src/sysroot.rs lines 110-134 over
the already-deserialized build-plan records. -/
def extract_artifacts (build_plan_dir target_dir : List String)
    (plan : List BuildPlan) : List (List String) :=
  plan.flatMap fun step =>
    (step.invocations.flatMap (fun i => i.outputs)).filterMap
      (artifact_of build_plan_dir target_dir)

/-- `Path::file_name` of a component path. -/
def file_name_of (p : List String) : Option String :=
  p.getLast?

/-- The stale-artifact filter of src/sysroot.rs lines 166-178: files in
the lib directory whose name matches no artifact file name. -/
def to_remove (artifacts : List (List String)) (files : List String) : List String :=
  files.filter fun n => ! artifacts.any (fun a => file_name_of a == some n)

/-- The lib-directory contents after the removal loop of lines 181-183. -/
def prune (artifacts : List (List String)) (files : List String) : List String :=
  files.filter fun n => artifacts.any (fun a => file_name_of a == some n)

/-- One iteration of the copy loop of src/sysroot.rs lines 186-192 on
the pair (current lib-dir contents, names copied so far): copying is
skipped when the destination name already exists. -/
def copy_step (st : List String × List String) (a : List String) :
    List String × List String :=
  let n := (file_name_of a).getD ""
  if st.1.contains n then st else (st.1 ++ [n], st.2 ++ [n])

/-- The whole copy loop over the artifact list. -/
def copy_all (artifacts : List (List String)) (files : List String) :
    List String × List String :=
  artifacts.foldl copy_step (files, [])

/-- Outcome of the library-directory synchronization step (src/sysroot.rs
lines 163-192): names removed, names copied, and the final contents. -/
structure SyncResult where
  removed : List String
  copied : List String
  final : List String
deriving Repr, DecidableEq

/-- The library-directory synchronization step: prune stale files, then
copy every artifact whose name is not already present. -/
def sync_lib_dir (artifacts : List (List String)) (files : List String) : SyncResult :=
  let removed := to_remove artifacts files
  let kept := prune artifacts files
  let fc := copy_all artifacts kept
  { removed := removed, copied := fc.2, final := fc.1 }

/-- Observable outcome of a run of `sysroot::build`: the final result or
error message, the filesystem writes performed (directories created,
files written or copied, in order), whether the rustup component
installation and the real (non-dry-run) compile were invoked, whether
the library-directory synchronization step was reached, and the
synchronization details. -/
structure BuildResult where
  outcome : Except String (List String)
  fs_writes : List (List String)
  invoked_rust_src : Bool
  invoked_real_build : Bool
  reached_sync : Bool
  removed : List String
  copied : List String
  lib_dir_after : List String
  written_spec : Option TargetSpec

/-- The straight-line continuation of `sysroot::build` after the
rust-src step (src/sysroot.rs lines 87-194): build-plan query, artifact
extraction, the missing-artifact check deciding the real compile, and
the library-directory synchronization. -/
def build_tail (tdir : List String) (target : String) (spec : TargetSpec)
    (writes2 : List (List String)) (invoked_src : Bool)
    (plan : Option (List BuildPlan))
    (file_exists : List String → Bool)
    (real_build_ok : Bool) (lib_files : List String) : BuildResult :=
  match plan with
  | none =>
    { outcome := .error "Failed to build sysroot", fs_writes := writes2,
      invoked_rust_src := invoked_src, invoked_real_build := false,
      reached_sync := false, removed := [], copied := [],
      lib_dir_after := lib_files, written_spec := some spec }
  | some records =>
    let artifacts := extract_artifacts (build_plan_dirOf tdir) (build_dirOf tdir) records
    let should_build := artifacts.any fun f => ! file_exists f
    if should_build && ! real_build_ok then
      { outcome := .error "Failed to build sysroot", fs_writes := writes2,
        invoked_rust_src := invoked_src, invoked_real_build := true,
        reached_sync := false, removed := [], copied := [],
        lib_dir_after := lib_files, written_spec := some spec }
    else
      let r := sync_lib_dir artifacts lib_files
      { outcome := .ok (sysroot_dirOf tdir),
        fs_writes := writes2 ++ [libs_dirOf tdir target]
          ++ r.copied.map (fun n => libs_dirOf tdir target ++ [n]),
        invoked_rust_src := invoked_src, invoked_real_build := should_build,
        reached_sync := true, removed := r.removed, copied := r.copied,
        lib_dir_after := r.final, written_spec := some spec }

/-- `sysroot::build` from src/sysroot.rs, with every subprocess modelled
as an oracle input: `base_spec` is the parsed result of the `get_spec`
query (`none` for failure), `version` the parsed `release:` line of
`cargo version`, `rustup_toolchain` the RUSTUP_TOOLCHAIN variable,
`rust_src_ok` whether `rustup component add rust-src` succeeds, `plan`
the deserialized build-plan records (`none` when the query fails),
`file_exists` on-disk existence of artifact paths, `real_build_ok`
whether the real compile exits successfully, and `lib_files` the file
names initially present in the sysroot lib directory. -/
def build (tdir : List String) (target : String)
    (base_spec : Option TargetSpec) (version : Option String)
    (rustup_toolchain : Option String) (rust_src_ok : Bool)
    (plan : Option (List BuildPlan))
    (file_exists : List String → Bool)
    (real_build_ok : Bool) (lib_files : List String) : BuildResult :=
  if target = "x86_64-hyperlight-none" then
    match base_spec with
    | none =>
      { outcome := .error "Failed to get base target spec", fs_writes := [],
        invoked_rust_src := false, invoked_real_build := false,
        reached_sync := false, removed := [], copied := [],
        lib_dir_after := lib_files, written_spec := none }
    | some base =>
      let spec := patch_spec base
      let triplet_dir := triplet_dirOf tdir target
      let crate_dir := crate_dirOf tdir
      let writes1 : List (List String) := [triplet_dir, triplet_dir ++ ["target.json"]]
      match version with
      | none =>
        { outcome := .error "Failed to get cargo version", fs_writes := writes1,
          invoked_rust_src := false, invoked_real_build := false,
          reached_sync := false, removed := [], copied := [],
          lib_dir_after := lib_files, written_spec := some spec }
      | some _v =>
        let writes2 := writes1 ++
          [crate_dir, crate_dir ++ ["Cargo.toml"], crate_dir ++ ["lib.rs"]]
        let cont := fun (invoked_src : Bool) =>
          build_tail tdir target spec writes2 invoked_src plan file_exists
            real_build_ok lib_files
        match rustup_toolchain with
        | some _tc =>
          if rust_src_ok then cont true
          else
            -- The source context message reads Rust,apostrophe,s; the
            -- apostrophe is left out of this embedding.
            { outcome := .error "Failed to get Rust std lib sources",
              fs_writes := writes2, invoked_rust_src := true,
              invoked_real_build := false, reached_sync := false,
              removed := [], copied := [], lib_dir_after := lib_files,
              written_spec := some spec }
        | none => cont false
  else
    { outcome := .error ("Unsupported target triple: " ++ target), fs_writes := [],
      invoked_rust_src := false, invoked_real_build := false,
      reached_sync := false, removed := [], copied := [],
      lib_dir_after := lib_files, written_spec := none }

/-! ## Toolchain: C flags and tool discovery (src/toolchain.rs) -/

/-- The constant FLAGS array of `cflags` in src/toolchain.rs. -/
def cflags_base : List String :=
  ["--target=x86_64-unknown-linux-none",
   "-fno-stack-protector",
   "-fstack-clash-protection",
   "-mstack-probe-size=4096",
   "-mno-red-zone",
   "-nostdinc"]

/-- `cflags` from src/toolchain.rs: push every constant flag followed by
a space, then a further space, `-isystem`, a space and the include
directory of the sysroot. -/
def cflags (includes_dir : String) : String :=
  (cflags_base.foldl (fun acc f => acc ++ f ++ " ") "") ++
    " " ++ "-isystem" ++ " " ++ includes_dir

/-- Whether the given pattern occurs at the head of the text followed
immediately by a decimal digit. -/
def versionedAt : List Char → List Char → Bool
  | [], [] => false
  | [], c :: _ => c.isDigit
  | _ :: _, [] => false
  | p :: ps, c :: cs => p == c && versionedAt ps cs

/-- Whether the pattern followed by a digit occurs anywhere in the text. -/
def hasVersionedSub (p : List Char) : List Char → Bool
  | [] => versionedAt p []
  | c :: ts => versionedAt p (c :: ts) || hasVersionedSub p ts

/-- Whether a file name matches the unanchored versioned-tool pattern
(regex tool dash digits): it contains the tool name followed by a dash
and at least one digit, as matched by `which::which_re`. -/
def matchesVersioned (tool name : String) : Bool :=
  hasVersionedSub (tool ++ "-").data name.data

/-- `which::which` over a search path modelled as the list of available
executable names in search order. -/
def which (path : List String) (name : String) : Option String :=
  path.find? fun p => p = name

/-- `find_cc` from src/toolchain.rs: the unversioned clang when present,
else the first versioned clang match, else a tool-not-found error (the
source message quotes the tool name). -/
def find_cc (path : List String) : Except String String :=
  match which path "clang" with
  | some p => .ok p
  | none =>
    match path.find? (matchesVersioned "clang") with
    | some p => .ok p
    | none => .error "Could not find clang in PATH"

/-- `find_ar` from src/toolchain.rs: ar, else llvm-ar, else the first
versioned llvm-ar match, else a tool-not-found error. -/
def find_ar (path : List String) : Except String String :=
  match which path "ar" with
  | some p => .ok p
  | none =>
    match which path "llvm-ar" with
    | some p => .ok p
    | none =>
      match path.find? (matchesVersioned "llvm-ar") with
      | some p => .ok p
      | none => .error "Could not find ar or llvm-ar in PATH"

/-! ## CLI target resolution (src/cli.rs) -/

/-- The warning levels of src/cli.rs: `Warning::IGNORE`, `Warning::WARN`
and `Warning::ERROR`. -/
inductive WLevel
  | ignore
  | warn
  | error
deriving Repr, DecidableEq

/-- The `warning` method of the three `WarningLevel` implementations in
src/cli.rs, returning the emitted warning lines alongside the result:
IGNORE returns the default silently, WARN prints the message and the
error and returns the default, ERROR fails with the error in the
context of the message. -/
def warningAt (w : WLevel) (msg err : String) (d : String) :
    List String × Except String String :=
  match w with
  | .ignore => ([], .ok d)
  | .warn => ([msg, err, "using the default"], .ok d)
  | .error => ([], .error (msg ++ ": " ++ err))

/-- `str::ends_with`, on the underlying character sequences. -/
def ends_with (s suf : String) : Bool :=
  suf.data.isSuffixOf s.data

/-- The architecture part used for the substituted target:
`target.split_once(dash).unwrap_or((target, ""))`, keeping the part
before the first dash, or the whole target when it has no dash. -/
def arch_of (target : String) : String :=
  match splitOnceChar '-' target.data with
  | some ab => String.mk ab.1
  | none => target

/-- The target fix-up of `Args::try_from_with_defaults` (src/cli.rs
lines 160-169): a target ending in -hyperlight-none passes through;
any other target is reported through the warning level with the default
`arch ++ "-hyperlight-none"`, where arch is the part of the target
before its first dash (the whole target when it has no dash). -/
def fixup_target (w : WLevel) (target : String) : List String × Except String String :=
  if ends_with target "-hyperlight-none" then ([], .ok target)
  else
    let arch := arch_of target
    warningAt w "requested target is not a hyperlight target"
      ("invalid hyperlight target: " ++ target)
      (arch ++ "-hyperlight-none")

/-- Whether the pattern occurs at the head of the text. -/
def isSubAt : List Char → List Char → Bool
  | [], _ => true
  | _ :: _, [] => false
  | p :: ps, t :: ts => p == t && isSubAt ps ts

/-- Whether the pattern occurs anywhere in the text (used only to state
the absence of a flag from a composed flag string). -/
def hasSub (p : List Char) : List Char → Bool
  | [] => isSubAt p []
  | c :: ts => isSubAt p (c :: ts) || hasSub p ts

/-! ## Theorems -/

/-- Folding the overlay entries over any starting map yields, at every
key, the last overlay binding for that key when there is one, and the
starting value otherwise. -/
theorem foldl_applyEnv_eq (envs : List (String × Option String)) (m : EnvMap) (k : String) :
    envs.foldl applyEnv m k = (match overlayLookup envs k with
      | some (some v) => some v
      | some none => none
      | none => m k) := by
  induction envs generalizing m with
  | nil => rfl
  | cons kv rest ih =>
    rw [List.foldl_cons, ih (applyEnv m kv)]
    cases h : overlayLookup rest k with
    | some r =>
      simp only [overlayLookup, h]
      cases r <;> rfl
    | none =>
      simp only [overlayLookup, h]
      by_cases hk : kv.1 = k
      · subst hk
        cases hv : kv.2 with
        | some v => simp [applyEnv, hv, mapInsert]
        | none => simp [applyEnv, hv, mapRemove]
      · rw [if_neg hk]
        cases hv : kv.2 with
        | some v => simp [applyEnv, hv, mapInsert, Ne.symm hk]
        | none => simp [applyEnv, hv, mapRemove, Ne.symm hk]

/-- C1: for every base mapping and overlay of set/unset entries, the
resolved mapping gives, at every key, the value of the last overlay
entry explicitly setting the key; omits the key entirely (yields none)
when the overlay explicitly unsets it, even if the base contains it;
and gives the base value unchanged for every key the overlay does not
mention. -/
theorem merge_env_resolves (base : List (String × String))
    (envs : List (String × Option String)) (k : String) :
    merge_env base envs k = (match overlayLookup envs k with
      | some (some v) => some v
      | some none => none
      | none => baseMap base k) :=
  foldl_applyEnv_eq envs (baseMap base) k

/-- The triple-exact CFLAGS key is never the bindgen mirror variable. -/
theorem cflags_key_ne_bindgen (t : String) :
    "CFLAGS_" ++ t ≠ "BINDGEN_EXTRA_CLANG_ARGS" := by
  intro h
  have h2 := congrArg String.data h
  rw [String.data_append] at h2
  simp at h2

/-- Reading back a key just set. -/
theorem get_env_env_self (cmd : Cmd) (k v : String) :
    get_env (cmd.env k v) k = some v := by
  simp [get_env, Cmd.env]

/-- Setting one key leaves reads of any other key unchanged. -/
theorem get_env_env_ne (cmd : Cmd) (k v k2 : String) (h : k2 ≠ k) :
    get_env (cmd.env k v) k2 = get_env cmd k2 := by
  simp [get_env, Cmd.env, h]

/-- C2: for a non-empty flag string, `append_cflags` writes to the
triple-exact key the first effective value found along the search-key
chain joined to the flags with one space (no space when that value is
empty), mirrors the flags into BINDGEN_EXTRA_CLANG_ARGS in the same
way, and changes no other variable; an empty flag string leaves the
whole command state identical. -/
theorem append_cflags_spec (cmd : Cmd) (triplet flags : String) :
    (flags ≠ "" →
      get_env (append_cflags cmd triplet flags) ("CFLAGS_" ++ triplet)
        = some ((if ((search_keys triplet).findSome? (fun key => get_env cmd key)).getD "" = ""
              then ((search_keys triplet).findSome? (fun key => get_env cmd key)).getD ""
              else ((search_keys triplet).findSome? (fun key => get_env cmd key)).getD "" ++ " ")
            ++ flags)
      ∧ get_env (append_cflags cmd triplet flags) "BINDGEN_EXTRA_CLANG_ARGS"
        = some ((if (get_env cmd "BINDGEN_EXTRA_CLANG_ARGS").getD "" = ""
              then (get_env cmd "BINDGEN_EXTRA_CLANG_ARGS").getD ""
              else (get_env cmd "BINDGEN_EXTRA_CLANG_ARGS").getD "" ++ " ")
            ++ flags)
      ∧ (∀ k2, k2 ≠ "CFLAGS_" ++ triplet → k2 ≠ "BINDGEN_EXTRA_CLANG_ARGS" →
          (append_cflags cmd triplet flags).overlay k2 = cmd.overlay k2)
      ∧ (append_cflags cmd triplet flags).ambient = cmd.ambient)
    ∧ append_cflags cmd triplet "" = cmd := by
  constructor
  · intro hf
    unfold append_cflags append_bindgen_cflags
    rw [if_neg hf, if_neg hf]
    have hhead : (search_keys triplet).headD "" = "CFLAGS_" ++ triplet := by
      simp [search_keys]
    rw [hhead]
    refine ⟨?_, ?_, ?_, ?_⟩
    · rw [get_env_env_ne _ _ _ _ (cflags_key_ne_bindgen triplet), get_env_env_self]
    · rw [get_env_env_self,
        get_env_env_ne _ _ _ _ (Ne.symm (cflags_key_ne_bindgen triplet))]
    · intro k2 h1 h2
      simp [Cmd.env, h1, h2]
    · rfl
  · simp [append_cflags]

/-- Witness for C2: with CFLAGS set to -O2 in the ambient environment
and nothing else set, appending -foo for the hyperlight triplet yields
-O2 -foo under the triple-exact key. -/
theorem append_cflags_spec_witness :
    get_env
        (append_cflags
          ⟨fun _ => none, fun k => if k = "CFLAGS" then some "-O2" else none⟩
          "x86_64-hyperlight-none" "-foo")
        ("CFLAGS_" ++ "x86_64-hyperlight-none")
      = some "-O2 -foo" :=
  ((append_cflags_spec
      ⟨fun _ => none, fun k => if k = "CFLAGS" then some "-O2" else none⟩
      "x86_64-hyperlight-none" "-foo").1 (by decide)).1

/-- C7: the freestanding target specification produced from a baseline
spec sets exactly the entry-point name (entrypoint), the code model
(small), the linker (rust-lld), the linker flavor (gnu-lld) and the
pre-link arguments (gnu-lld mapped to the single flag -znostart-stop-gc
disabling start/stop section garbage collection), and leaves every
other baseline field unchanged. -/
theorem patch_spec_fields (spec : TargetSpec) :
    (patch_spec spec).entry_name = some "entrypoint"
    ∧ (patch_spec spec).code_model = some "small"
    ∧ (patch_spec spec).linker = some "rust-lld"
    ∧ (patch_spec spec).linker_flavor = some "gnu-lld"
    ∧ (patch_spec spec).pre_link_args = some [("gnu-lld", ["-znostart-stop-gc"])]
    ∧ (patch_spec spec).other = spec.other :=
  ⟨rfl, rfl, rfl, rfl, rfl, rfl⟩

/-- C6 (amended): the composed C-compiler flag string is exactly the
architecture override, the stack-protector-disabling flag, the
stack-clash-protection and stack-probe flags, the red-zone and standard
header opt-outs, followed by the private system-include flag and the
include directory; in particular no position-independent-code flag is
ever appended. -/
theorem cflags_exact (includes_dir : String) :
    cflags includes_dir
      = "--target=x86_64-unknown-linux-none -fno-stack-protector " ++
        "-fstack-clash-protection -mstack-probe-size=4096 -mno-red-zone " ++
        "-nostdinc  -isystem " ++ includes_dir := rfl

/-- Counterexample for C6 as stated: at a concrete include directory,
no token of the composed flag string is a position-independent-code
flag (none of -fPIC, -fpic, -fPIE, -fpie occurs). -/
theorem cflags_no_pic_counterexample :
    hasSub "-fPIC".data (cflags "/sysroot/include").data = false
    ∧ hasSub "-fpic".data (cflags "/sysroot/include").data = false
    ∧ hasSub "-fPIE".data (cflags "/sysroot/include").data = false
    ∧ hasSub "-fpie".data (cflags "/sysroot/include").data = false := by
  refine ⟨?_, ?_, ?_, ?_⟩ <;> decide

/-- `which` finds a name that is on the search path. -/
theorem which_eq_some_of_mem (path : List String) (name : String) (h : name ∈ path) :
    which path name = some name := by
  have h1 : (path.find? fun p => p = name).isSome := by
    rw [List.find?_isSome]
    exact ⟨name, h, by simp⟩
  obtain ⟨p, hp⟩ := Option.isSome_iff_exists.mp h1
  have h2 := List.find?_some hp
  simp only [decide_eq_true_eq] at h2
  unfold which
  rw [hp, h2]

/-- `which` fails for a name absent from the search path. -/
theorem which_eq_none_of_not_mem (path : List String) (name : String) (h : name ∉ path) :
    which path name = none := by
  unfold which
  rw [List.find?_eq_none]
  intro x hx
  simp only [decide_eq_true_eq]
  intro he
  exact h (he ▸ hx)

/-- C9: the compiler locator returns the unversioned clang when it is on
the search path, otherwise the first search-path entry matching the
versioned-suffix pattern, and otherwise fails with a tool-not-found
error naming the tool; the archiver locator follows the same algorithm
with primary name ar, alternate primary llvm-ar, and the versioned
llvm-ar fallback. -/
theorem find_cc_find_ar_spec (path : List String) :
    ("clang" ∈ path → find_cc path = .ok "clang")
    ∧ ("clang" ∉ path → ∀ p, path.find? (matchesVersioned "clang") = some p →
        find_cc path = .ok p)
    ∧ ("clang" ∉ path → path.find? (matchesVersioned "clang") = none →
        find_cc path = .error "Could not find clang in PATH")
    ∧ ("ar" ∈ path → find_ar path = .ok "ar")
    ∧ ("ar" ∉ path → "llvm-ar" ∈ path → find_ar path = .ok "llvm-ar")
    ∧ ("ar" ∉ path → "llvm-ar" ∉ path →
        ∀ p, path.find? (matchesVersioned "llvm-ar") = some p → find_ar path = .ok p)
    ∧ ("ar" ∉ path → "llvm-ar" ∉ path →
        path.find? (matchesVersioned "llvm-ar") = none →
        find_ar path = .error "Could not find ar or llvm-ar in PATH") := by
  refine ⟨?_, ?_, ?_, ?_, ?_, ?_, ?_⟩
  · intro h
    unfold find_cc
    rw [which_eq_some_of_mem path _ h]
  · intro h p hp
    unfold find_cc
    rw [which_eq_none_of_not_mem path _ h, hp]
  · intro h hn
    unfold find_cc
    rw [which_eq_none_of_not_mem path _ h, hn]
  · intro h
    unfold find_ar
    rw [which_eq_some_of_mem path _ h]
  · intro h1 h2
    unfold find_ar
    rw [which_eq_none_of_not_mem path _ h1, which_eq_some_of_mem path _ h2]
  · intro h1 h2 p hp
    unfold find_ar
    rw [which_eq_none_of_not_mem path _ h1, which_eq_none_of_not_mem path _ h2, hp]
  · intro h1 h2 hn
    unfold find_ar
    rw [which_eq_none_of_not_mem path _ h1, which_eq_none_of_not_mem path _ h2, hn]

/-- Witness for C9: on a search path carrying gcc, a non-matching
xclang name, clang-18 and llvm-ar-17 but no unversioned clang, the
locator returns clang-18, and the archiver locator falls back to
llvm-ar-17. -/
theorem find_cc_find_ar_spec_witness :
    find_cc ["gcc", "xclang", "clang-18", "llvm-ar-17"] = .ok "clang-18"
    ∧ find_ar ["gcc", "xclang", "clang-18", "llvm-ar-17"] = .ok "llvm-ar-17" :=
  ⟨(find_cc_find_ar_spec ["gcc", "xclang", "clang-18", "llvm-ar-17"]).2.1
      (by decide) "clang-18" (by decide),
   ((find_cc_find_ar_spec ["gcc", "xclang", "clang-18", "llvm-ar-17"]).2.2.2.2.2.1
      (by decide) (by decide)) "llvm-ar-17" (by decide)⟩

/-- C10: under the warning (non-error) level, a requested target that
does not end in -hyperlight-none is not an error: the resolver emits
warnings and substitutes arch-hyperlight-none, where arch is the part
of the target before its first dash (the whole target when it has no
dash); a target already ending in -hyperlight-none passes through
unchanged with no warning. -/
theorem fixup_target_warn (target : String) :
    (ends_with target "-hyperlight-none" = false →
      fixup_target .warn target
        = (["requested target is not a hyperlight target",
            "invalid hyperlight target: " ++ target, "using the default"],
           .ok (arch_of target ++ "-hyperlight-none")))
    ∧ (ends_with target "-hyperlight-none" = true →
      fixup_target .warn target = ([], .ok target)) := by
  constructor
  · intro h
    simp [fixup_target, warningAt, h]
  · intro h
    simp [fixup_target, h]

/-- Witness for C10: the non-hyperlight target x86_64-unknown-linux-gnu
is substituted by x86_64-hyperlight-none with a warning, and
aarch64-hyperlight-none passes through unchanged. -/
theorem fixup_target_warn_witness :
    fixup_target .warn "x86_64-unknown-linux-gnu"
      = (["requested target is not a hyperlight target",
          "invalid hyperlight target: x86_64-unknown-linux-gnu",
          "using the default"],
         .ok "x86_64-hyperlight-none")
    ∧ fixup_target .warn "aarch64-hyperlight-none" = ([], .ok "aarch64-hyperlight-none") :=
  ⟨(fixup_target_warn "x86_64-unknown-linux-gnu").1 (by decide),
   (fixup_target_warn "aarch64-hyperlight-none").2 (by decide)⟩

/-- C8: for every requested target other than x86_64-hyperlight-none,
the sysroot build fails with an unsupported-target error naming the
triple, and performs no filesystem write before failing. -/
theorem unsupported_target_fails (tdir : List String) (target : String)
    (base_spec : Option TargetSpec) (version : Option String)
    (rt : Option String) (rs : Bool) (plan : Option (List BuildPlan))
    (fe : List String → Bool) (rb : Bool) (lf : List String)
    (h : target ≠ "x86_64-hyperlight-none") :
    (build tdir target base_spec version rt rs plan fe rb lf).outcome
      = .error ("Unsupported target triple: " ++ target)
    ∧ (build tdir target base_spec version rt rs plan fe rb lf).fs_writes = [] := by
  unfold build
  rw [if_neg h]
  exact ⟨rfl, rfl⟩

/-- Witness for C8: a concrete non-hyperlight triple is rejected with
the naming error and an empty write trace. -/
theorem unsupported_target_fails_witness :
    (build [] "aarch64-unknown-linux-gnu" none none none true none
        (fun _ => false) true []).outcome
      = .error ("Unsupported target triple: " ++ "aarch64-unknown-linux-gnu")
    ∧ (build [] "aarch64-unknown-linux-gnu" none none none true none
        (fun _ => false) true []).fs_writes = [] :=
  unsupported_target_fails [] "aarch64-unknown-linux-gnu" none none none true none
    (fun _ => false) true [] (by decide)

/-- C5 (amended): when the active toolchain is a managed rustup one and
the rust-src component installation fails, the sysroot build is fatal
at that step: it returns the step error and neither invokes the real
compile nor reaches the library-directory synchronization (the source
propagates the failure with the question-mark operator instead of
treating it as best-effort). -/
theorem rust_src_failure_fatal (tdir : List String) (base : TargetSpec) (v tc : String)
    (plan : Option (List BuildPlan)) (fe : List String → Bool)
    (rb : Bool) (lf : List String) :
    (build tdir "x86_64-hyperlight-none" (some base) (some v) (some tc) false plan fe rb lf).outcome
      = .error "Failed to get Rust std lib sources"
    ∧ (build tdir "x86_64-hyperlight-none" (some base) (some v) (some tc) false plan fe rb lf).invoked_real_build
      = false
    ∧ (build tdir "x86_64-hyperlight-none" (some base) (some v) (some tc) false plan fe rb lf).reached_sync
      = false :=
  ⟨rfl, rfl, rfl⟩

/-- Counterexample for C5 as stated: at a concrete input where every
step before the rust-src installation succeeds and the installation
fails under a managed toolchain, the build returns an error and does
not continue to the following steps. -/
theorem rust_src_failure_counterexample :
    (build [] "x86_64-hyperlight-none" (some ⟨none, none, none, none, none, []⟩)
        (some "1.89.0") (some "stable") false (some []) (fun _ => true) true []).outcome
      = .error "Failed to get Rust std lib sources"
    ∧ (build [] "x86_64-hyperlight-none" (some ⟨none, none, none, none, none, []⟩)
        (some "1.89.0") (some "stable") false (some []) (fun _ => true) true []).reached_sync
      = false :=
  ⟨rfl, rfl⟩

/-- The real compile decision in the build tail: invoked exactly when
some expected artifact is missing, and on a full cache hit the build
skips straight to the synchronization step. -/
theorem build_tail_invoked (tdir : List String) (target : String) (spec : TargetSpec)
    (writes2 : List (List String)) (isrc : Bool) (records : List BuildPlan)
    (fe : List String → Bool) (rb : Bool) (lf : List String) :
    (build_tail tdir target spec writes2 isrc (some records) fe rb lf).invoked_real_build
      = (extract_artifacts (build_plan_dirOf tdir) (build_dirOf tdir) records).any
          (fun f => ! fe f)
    ∧ ((extract_artifacts (build_plan_dirOf tdir) (build_dirOf tdir) records).all
          (fun f => fe f) = true →
        (build_tail tdir target spec writes2 isrc (some records) fe rb lf).invoked_real_build
          = false
        ∧ (build_tail tdir target spec writes2 isrc (some records) fe rb lf).reached_sync
          = true) := by
  by_cases hs : (extract_artifacts (build_plan_dirOf tdir) (build_dirOf tdir) records).any
      (fun f => ! fe f) = true
  · constructor
    · by_cases hrb : rb
      · simp [build_tail, hs, hrb]
      · simp [build_tail, hs, hrb]
    · intro hall
      exfalso
      rw [List.any_eq_true] at hs
      obtain ⟨f, hf, hnf⟩ := hs
      rw [List.all_eq_true] at hall
      have h2 := hall f hf
      simp [h2] at hnf
  · have hs2 : (extract_artifacts (build_plan_dirOf tdir) (build_dirOf tdir) records).any
        (fun f => ! fe f) = false := by
      exact Bool.eq_false_iff.mpr hs
    exact ⟨by simp [build_tail, hs2], fun _ => ⟨by simp [build_tail, hs2], by simp [build_tail, hs2]⟩⟩

/-- C3: once the build reaches the artifact check (supported target,
successful spec, version and plan queries, rust-src step passed), the
real (non-dry-run) compile is invoked exactly when at least one
expected artifact is missing on disk; when every expected artifact
already exists, the compile is not invoked and the build proceeds
directly to the library-directory synchronization step. -/
theorem sysroot_cache_hit (tdir : List String) (base : TargetSpec) (v : String)
    (rt : Option String) (records : List BuildPlan) (fe : List String → Bool)
    (rb : Bool) (lf : List String) :
    (build tdir "x86_64-hyperlight-none" (some base) (some v) rt true (some records)
        fe rb lf).invoked_real_build
      = (extract_artifacts (build_plan_dirOf tdir) (build_dirOf tdir) records).any
          (fun f => ! fe f)
    ∧ ((extract_artifacts (build_plan_dirOf tdir) (build_dirOf tdir) records).all
          (fun f => fe f) = true →
        (build tdir "x86_64-hyperlight-none" (some base) (some v) rt true (some records)
            fe rb lf).invoked_real_build = false
        ∧ (build tdir "x86_64-hyperlight-none" (some base) (some v) rt true (some records)
            fe rb lf).reached_sync = true) := by
  cases rt with
  | none =>
    exact build_tail_invoked tdir "x86_64-hyperlight-none" (patch_spec base) _ false
      records fe rb lf
  | some tc =>
    exact build_tail_invoked tdir "x86_64-hyperlight-none" (patch_spec base) _ true
      records fe rb lf

/-- Witness for C3: with one expected artifact that already exists on
disk, the build does not invoke the real compile and reaches the
synchronization step. -/
theorem sysroot_cache_hit_witness :
    (build [] "x86_64-hyperlight-none" (some ⟨none, none, none, none, none, []⟩)
        (some "1.89.0") none true
        (some [⟨[⟨[["sysroot", "build-plan", "release", "deps", "libcore-1234.rlib"]]⟩]⟩])
        (fun _ => true) true []).invoked_real_build = false
    ∧ (build [] "x86_64-hyperlight-none" (some ⟨none, none, none, none, none, []⟩)
        (some "1.89.0") none true
        (some [⟨[⟨[["sysroot", "build-plan", "release", "deps", "libcore-1234.rlib"]]⟩]⟩])
        (fun _ => true) true []).reached_sync = true :=
  (sysroot_cache_hit [] ⟨none, none, none, none, none, []⟩ "1.89.0" none
      [⟨[⟨[["sysroot", "build-plan", "release", "deps", "libcore-1234.rlib"]]⟩]⟩]
      (fun _ => true) true []).2 (by decide)

/-- Final lib-dir contents of the copy loop: a name is present exactly
when it was present before or is the name of some artifact. -/
theorem copy_all_fst_mem (artifacts : List (List String)) (dir acc : List String)
    (x : String) :
    (x ∈ (artifacts.foldl copy_step (dir, acc)).1 ↔
      x ∈ dir ∨ x ∈ artifacts.map (fun a => (file_name_of a).getD "")) := by
  induction artifacts generalizing dir acc with
  | nil => simp
  | cons a rest ih =>
    rw [List.foldl_cons]
    by_cases hmem : ((file_name_of a).getD "") ∈ dir
    · rw [show copy_step (dir, acc) a = (dir, acc) by simp [copy_step, hmem]]
      rw [ih]
      simp only [List.map_cons, List.mem_cons]
      constructor
      · tauto
      · rintro (h | h | h)
        · exact Or.inl h
        · exact Or.inl (h ▸ hmem)
        · exact Or.inr h
    · rw [show copy_step (dir, acc) a
          = (dir ++ [(file_name_of a).getD ""], acc ++ [(file_name_of a).getD ""]) by
        simp [copy_step, hmem]]
      rw [ih]
      simp only [List.mem_append, List.mem_singleton, List.map_cons, List.mem_cons]
      tauto

/-- Names copied by the copy loop: exactly the artifact names that were
not already present (each recorded once, duplicates skipped). -/
theorem copy_all_snd_mem (artifacts : List (List String)) (dir acc : List String)
    (x : String) :
    (x ∈ (artifacts.foldl copy_step (dir, acc)).2 ↔
      x ∈ acc ∨ (x ∈ artifacts.map (fun a => (file_name_of a).getD "") ∧ x ∉ dir)) := by
  induction artifacts generalizing dir acc with
  | nil => simp
  | cons a rest ih =>
    rw [List.foldl_cons]
    by_cases hmem : ((file_name_of a).getD "") ∈ dir
    · rw [show copy_step (dir, acc) a = (dir, acc) by simp [copy_step, hmem]]
      rw [ih]
      simp only [List.map_cons, List.mem_cons]
      constructor
      · tauto
      · rintro (h | ⟨(h | h), hd⟩)
        · exact Or.inl h
        · exact absurd (h ▸ hmem) hd
        · exact Or.inr ⟨h, hd⟩
    · rw [show copy_step (dir, acc) a
          = (dir ++ [(file_name_of a).getD ""], acc ++ [(file_name_of a).getD ""]) by
        simp [copy_step, hmem]]
      rw [ih]
      simp only [List.mem_append, List.mem_singleton, List.map_cons, List.mem_cons]
      by_cases hx : x = (file_name_of a).getD ""
      · subst hx
        simp [hmem]
      · simp only [hx, or_false, false_or]
        tauto

/-- When every artifact has a file name, reading the names with a
default is the same as filtering them out. -/
theorem map_getD_eq_filterMap (artifacts : List (List String))
    (ha : ∀ a ∈ artifacts, (file_name_of a).isSome = true) :
    artifacts.map (fun a => (file_name_of a).getD "")
      = artifacts.filterMap file_name_of := by
  induction artifacts with
  | nil => rfl
  | cons a rest ih =>
    obtain ⟨n, hn⟩ := Option.isSome_iff_exists.mp (ha a (List.mem_cons_self a rest))
    rw [List.map_cons, List.filterMap_cons, hn]
    simp only [Option.getD_some]
    rw [ih fun x hx => ha x (List.mem_cons_of_mem a hx)]

/-- The boolean artifact-name test agrees with membership in the
artifact file-name list. -/
theorem any_name_eq_mem (artifacts : List (List String)) (n : String) :
    ((artifacts.any fun a => file_name_of a == some n) = true ↔
      n ∈ artifacts.filterMap file_name_of) := by
  rw [List.any_eq_true]
  simp [List.mem_filterMap]

/-- C4: after the library-directory synchronization step, every file
whose name is not among the expected artifact file names has been
removed; every file whose name is among them stays and is never
overwritten by a copy; a name is copied exactly when it is an artifact
name with no file of that name already present; and the final directory
contains exactly the artifact file names. -/
theorem sync_lib_dir_spec (artifacts : List (List String)) (files : List String)
    (n : String) (ha : ∀ a ∈ artifacts, (file_name_of a).isSome = true) :
    (n ∈ files → (n ∈ (sync_lib_dir artifacts files).removed ↔
        n ∉ artifacts.filterMap file_name_of))
    ∧ (n ∈ files → n ∈ artifacts.filterMap file_name_of →
        n ∈ (sync_lib_dir artifacts files).final
        ∧ n ∉ (sync_lib_dir artifacts files).copied)
    ∧ (n ∈ (sync_lib_dir artifacts files).copied ↔
        (n ∈ artifacts.filterMap file_name_of ∧ n ∉ files))
    ∧ (n ∈ (sync_lib_dir artifacts files).final ↔
        n ∈ artifacts.filterMap file_name_of) := by
  have hm := map_getD_eq_filterMap artifacts ha
  have hkept : ∀ m, m ∈ prune artifacts files ↔
      m ∈ files ∧ m ∈ artifacts.filterMap file_name_of := by
    intro m
    rw [prune, List.mem_filter, any_name_eq_mem]
  have hfinal : n ∈ (sync_lib_dir artifacts files).final ↔
      n ∈ artifacts.filterMap file_name_of := by
    refine Iff.trans (copy_all_fst_mem artifacts (prune artifacts files) [] n) ?_
    rw [hm]
    constructor
    · rintro (h | h)
      · exact ((hkept n).mp h).2
      · exact h
    · exact fun h => Or.inr h
  have hcopied : n ∈ (sync_lib_dir artifacts files).copied ↔
      (n ∈ artifacts.filterMap file_name_of ∧ n ∉ files) := by
    refine Iff.trans (copy_all_snd_mem artifacts (prune artifacts files) [] n) ?_
    rw [hm]
    simp only [List.not_mem_nil, false_or]
    constructor
    · rintro ⟨hn, hk⟩
      exact ⟨hn, fun hf => hk ((hkept n).mpr ⟨hf, hn⟩)⟩
    · rintro ⟨hn, hf⟩
      exact ⟨hn, fun hk => hf ((hkept n).mp hk).1⟩
  have hremoved : n ∈ (sync_lib_dir artifacts files).removed ↔
      (n ∈ files ∧ n ∉ artifacts.filterMap file_name_of) := by
    show n ∈ to_remove artifacts files ↔ _
    rw [to_remove, List.mem_filter]
    constructor
    · rintro ⟨hf, hb⟩
      refine ⟨hf, fun hn => ?_⟩
      rw [Bool.not_eq_true'] at hb
      exact absurd ((any_name_eq_mem artifacts n).mpr hn) (by simp [hb])
    · rintro ⟨hf, hn⟩
      refine ⟨hf, ?_⟩
      rw [Bool.not_eq_true']
      by_cases hany : (artifacts.any fun a => file_name_of a == some n) = true
      · exact absurd ((any_name_eq_mem artifacts n).mp hany) hn
      · exact Bool.eq_false_iff.mpr hany
  refine ⟨?_, ?_, hcopied, hfinal⟩
  · intro hf
    rw [hremoved]
    exact ⟨fun h => h.2, fun h => ⟨hf, h⟩⟩
  · intro hf hn
    exact ⟨hfinal.mpr hn, fun hc => (hcopied.mp hc).2 hf⟩

/-- Witness for C4: with one expected artifact liba-1.rlib, a stale file
stale-0.rlib is removed, the present copy of liba-1.rlib is kept and
not re-copied, and the final directory is exactly the artifact names. -/
theorem sync_lib_dir_spec_witness :
    "stale-0.rlib" ∈ (sync_lib_dir [["target", "liba-1.rlib"]]
        ["liba-1.rlib", "stale-0.rlib"]).removed :=
  ((sync_lib_dir_spec [["target", "liba-1.rlib"]] ["liba-1.rlib", "stale-0.rlib"]
      "stale-0.rlib" (by decide)).1 (by decide)).mpr (by decide)
